import Mathlib

/-!
The program rhymes: the terminal chat client of `cmd/main.go`

A shallow embedding of `main`, `initialModel`, `Init`, `Update` and `View`.

The program is glue around three external libraries: the terminal toolkit
(bubbletea, bubbles/textarea, bubbles/viewport, lipgloss), and the OpenAI
client.  None of them is part of `cmd/main.go`, so

* the widgets are records holding the public fields the program assigns plus
  a private state of an arbitrary type, and every library call is an
  operation of a `Toolkit` record passed as a parameter;
* the remote completion call is a function `Api` passed to `Update`;
* the effects of `Update` (lines written to standard output, requests sent
  to the completion endpoint) are returned next to its Go result, and a
  run-time panic is the `error` case of that result.

The request context of `Update` (`context.WithCancel`, cancelled on return)
has no observable effect on the values below and is left out.
-/

namespace Rhymes

/-! ## Library types -/

/-- Carrier types of the terminal toolkit that the program never looks into. -/
structure Carriers where
  /-- Values of `tea.KeyMsg`. -/
  Key : Type
  /-- Values of `cursor.BlinkMsg`. -/
  Blink : Type
  /-- Messages of any other dynamic type. -/
  Other : Type
  /-- Private fields of `textarea.Model` (text, cursor, size, focus). -/
  TextareaState : Type
  /-- Private fields of `viewport.Model` (lines, scroll offset). -/
  ViewportState : Type
  /-- Values of `lipgloss.Style`. -/
  Style : Type
  /-- Commands produced by the widgets themselves. -/
  WidgetCmd : Type

/-- A `tea.Msg`, by the dynamic types `Update` switches on. -/
inductive Msg (c : Carriers) where
  | WindowSizeMsg (Width Height : Int)
  | KeyMsg (k : c.Key)
  | BlinkMsg (b : c.Blink)
  | other (o : c.Other)

/-- A `tea.Cmd`: `nil`, `tea.Quit`, or a command handed back by a widget. -/
inductive Cmd (c : Carriers) where
  | nil
  | Quit
  | widget (w : c.WidgetCmd)

/-- The `textarea.Model` widget: the public fields `initialModel` assigns, and
the private rest. -/
structure Textarea (c : Carriers) where
  Placeholder : String
  Prompt : String
  CharLimit : Int
  ShowLineNumbers : Bool
  FocusedStyleCursorLine : c.Style
  InsertNewlineEnabled : Bool
  state : c.TextareaState

/-- The `viewport.Model` widget: the public geometry fields, and the private
rest. -/
structure Viewport (c : Carriers) where
  Width : Int
  Height : Int
  state : c.ViewportState

/-- The library calls made by the program. -/
structure Toolkit (c : Carriers) where
  /-- The method `tea.KeyMsg.String`. -/
  keyString : c.Key → String
  /-- The constructor `textarea.New`. -/
  textareaNew : Textarea c
  /-- The method `Focus` of the textarea (its command is dropped by the caller). -/
  Focus : Textarea c → Textarea c
  /-- The method `SetWidth` of the textarea. -/
  SetWidth : Textarea c → Int → Textarea c
  /-- The method `SetHeight` of the textarea. -/
  SetHeight : Textarea c → Int → Textarea c
  /-- The method `Value` of the textarea: the text of the input buffer. -/
  Value : Textarea c → String
  /-- The method `Reset` of the textarea. -/
  Reset : Textarea c → Textarea c
  /-- The method `Update` of the textarea. -/
  textareaUpdate : Textarea c → Msg c → Textarea c × Cmd c
  /-- The method `View` of the textarea. -/
  textareaView : Textarea c → String
  /-- The command `textarea.Blink`. -/
  textareaBlink : Cmd c
  /-- The constructor `viewport.New`. -/
  viewportNew : Int → Int → Viewport c
  /-- The method `SetContent` of the viewport. -/
  SetContent : Viewport c → String → Viewport c
  /-- The method `GotoBottom` of the viewport (its result is dropped by the caller). -/
  GotoBottom : Viewport c → Viewport c
  /-- The method `View` of the viewport. -/
  viewportView : Viewport c → String
  /-- The constructor `lipgloss.NewStyle`. -/
  NewStyle : c.Style
  /-- The method `Foreground` of a style, applied to `lipgloss.Color` of a string. -/
  Foreground : c.Style → String → c.Style
  /-- The method `Render` of a style. -/
  Render : c.Style → String → String

/-- A Go `error` value, observed through its `Error()` text. -/
structure GoError where
  Error : String
deriving DecidableEq, Repr

/-! ## The completion API -/

/-- One message of a chat-completion request. -/
structure ChatCompletionMessageParam where
  Role : String
  Content : String
deriving DecidableEq, Repr

/-- The helper `openai.UserMessage`: a message of role `user`. -/
def UserMessage (content : String) : ChatCompletionMessageParam :=
  { Role := "user", Content := content }

/-- The constant `openai.ChatModelGPT4o`. -/
def ChatModelGPT4o : String := "gpt-4o"

/-- The request body `openai.ChatCompletionNewParams`, with the two fields the
program sets. -/
structure ChatCompletionNewParams where
  Messages : List ChatCompletionMessageParam
  Model : String
deriving DecidableEq, Repr

/-- One call of `client.Chat.Completions.New`: the credential the client was
built with and the request body. -/
structure Request where
  apiKey : String
  params : ChatCompletionNewParams
deriving DecidableEq, Repr

/-- The message of a response choice. -/
structure ChatCompletionMessage where
  Content : String
deriving DecidableEq, Repr

/-- One choice of a response. -/
structure ChatCompletionChoice where
  Message : ChatCompletionMessage
deriving DecidableEq, Repr

/-- The response `openai.ChatCompletion`. -/
structure ChatCompletion where
  Choices : List ChatCompletionChoice
deriving DecidableEq, Repr

/-- The remote endpoint as seen by one call of `Update`: the answer (a
response or an error) it gives to a request. -/
abbrev Api := Request → Except GoError ChatCompletion

/-! ## The program -/

/-- The struct `model` (main.go, lines 37-44). -/
structure model (c : Carriers) where
  viewport : Viewport c
  messages : List String
  textarea : Textarea c
  senderStyle : c.Style
  responderStyle : c.Style
  err : Option GoError

/-- The function `initialModel` (main.go, lines 46-76). -/
def initialModel {c : Carriers} (tk : Toolkit c) : model c :=
  let ta := tk.textareaNew
  let ta := { ta with Placeholder := "What rhymes with..." }
  let ta := tk.Focus ta
  let ta := { ta with Prompt := "┃ " }
  let ta := { ta with CharLimit := 280 }
  let ta := tk.SetWidth ta 30
  let ta := tk.SetHeight ta 3
  let ta := { ta with FocusedStyleCursorLine := tk.NewStyle }
  let ta := { ta with ShowLineNumbers := false }
  let vp := tk.viewportNew 30 5
  let vp := tk.SetContent vp "Welcome to the chat room!\nType a message and press Enter to send."
  let ta := { ta with InsertNewlineEnabled := false }
  { textarea := ta
    messages := []
    viewport := vp
    senderStyle := tk.Foreground tk.NewStyle "12"
    responderStyle := tk.Foreground tk.NewStyle "9"
    err := none }

/-- The method `Init` (main.go, lines 78-80). -/
def Init {c : Carriers} (tk : Toolkit c) (_m : model c) : Cmd c :=
  tk.textareaBlink

/-- A run-time panic of the Go program. -/
inductive Panic where
  | indexOutOfRange (index length : Nat)
deriving DecidableEq, Repr

/-- What one call of `Update` does: its Go result (or the panic that ended
it), the text written to standard output, and the completion requests sent. -/
structure Step (c : Carriers) where
  result : Except Panic (model c × Cmd c)
  stdout : List String
  requests : List Request

/-- The prompt built on line 105: `Sprintf("What rhymes with the word '%s'?", userInput)`. -/
def msgContents (userInput : String) : String :=
  "What rhymes with the word '" ++ userInput ++ "'?"

/-- The method `Update` (main.go, lines 82-147).  The parameter `key` is the
package variable `key`; `api` answers the request made on lines 108-116. -/
def Update {c : Carriers} (tk : Toolkit c) (key : String) (api : Api)
    (m : model c) (msg : Msg c) : Step c :=
  match msg with
  | .WindowSizeMsg Width _ =>
    let m := { m with viewport := { m.viewport with Width := Width } }
    let m := { m with textarea := tk.SetWidth m.textarea Width }
    { result := .ok (m, .nil), stdout := [], requests := [] }
  | .KeyMsg k =>
    if tk.keyString k = "esc" ∨ tk.keyString k = "ctrl+c" then
      { result := .ok (m, .Quit), stdout := [tk.Value m.textarea ++ "\n"], requests := [] }
    else if tk.keyString k = "enter" then
      let userInput := tk.Value m.textarea
      if userInput = "" then
        { result := .ok (m, .nil), stdout := [], requests := [] }
      else
        let contents := msgContents userInput
        let req : Request :=
          { apiKey := key
            params := { Messages := [UserMessage contents], Model := ChatModelGPT4o } }
        match api req with
        | .error err =>
          { result := .ok (m, .Quit)
            stdout := ["error encountered while making request to OpenAI API: " ++ err.Error]
            requests := [req] }
        | .ok chat =>
          let m := { m with messages := m.messages ++ [tk.Render m.senderStyle "You: " ++ contents] }
          match chat.Choices with
          | [] =>
            { result := .error (.indexOutOfRange 0 0), stdout := [], requests := [req] }
          | choice :: _ =>
            let m := { m with messages := m.messages ++
              [tk.Render m.responderStyle ("AI: " ++ choice.Message.Content)] }
            let m := { m with viewport := tk.SetContent m.viewport (String.intercalate "\n" m.messages) }
            let m := { m with textarea := tk.Reset m.textarea }
            let m := { m with viewport := tk.GotoBottom m.viewport }
            { result := .ok (m, .nil), stdout := [], requests := [req] }
    else
      let (ta, cmd) := tk.textareaUpdate m.textarea msg
      { result := .ok ({ m with textarea := ta }, cmd), stdout := [], requests := [] }
  | .BlinkMsg _ =>
    let (ta, cmd) := tk.textareaUpdate m.textarea msg
    { result := .ok ({ m with textarea := ta }, cmd), stdout := [], requests := [] }
  | .other _ =>
    { result := .ok (m, .nil), stdout := [], requests := [] }

/-- The method `View` (main.go, lines 149-155). -/
def View {c : Carriers} (tk : Toolkit c) (m : model c) : String :=
  tk.viewportView m.viewport ++ "\n\n" ++ tk.textareaView m.textarea ++ "\n\n"

/-- What a run of the process leaves behind: its exit code, what `main` itself
wrote to standard output and standard error, and whether `program.Run` was
called. -/
structure Process where
  exitCode : Nat
  stdout : List String
  stderr : List String
  started : Bool
deriving DecidableEq, Repr

/-- The function `main` (main.go, lines 23-35).  `Getenv` is `os.Getenv` (the
empty string for an unset variable) and `Run` is the event loop
`tea.NewProgram(...).Run()`, reduced to the error it returns.  Returning from
`main` ends the process with exit code 0; `os.Exit(1)` ends it with code 1. -/
def main {c : Carriers} (tk : Toolkit c) (Getenv : String → String)
    (Run : model c → Option GoError) : Process :=
  let key := Getenv "OPENAI_API_KEY"
  if key = "" then
    { exitCode := 1
      stdout := ["API key must be set via the 'OPENAI_API_KEY' environment variable\n\r"]
      stderr := []
      started := false }
  else
    match Run (initialModel tk) with
    | some err =>
      { exitCode := 0, stdout := [], stderr := ["Oof: " ++ err.Error ++ "\n"], started := true }
    | none =>
      { exitCode := 0, stdout := [], stderr := [], started := true }

/-! ## Sessions -/

/-- One event of a session: the message delivered to `Update` and the answer
the completion endpoint gives while that message is handled. -/
abbrev Event (c : Carriers) := Msg c × Api

/-- The event loop applied to a sequence of events: each model returned by
`Update` is the receiver of the next call; a panic ends the run.  The
commands returned are not interpreted, so a session that stops at the first
quit command is the run of the events up to it. -/
def run {c : Carriers} (tk : Toolkit c) (key : String) :
    model c → List (Event c) → Except Panic (model c)
  | m, [] => .ok m
  | m, ev :: rest =>
    match (Update tk key ev.2 m ev.1).result with
    | .ok (next, _) => run tk key next rest
    | .error p => .error p

/-- The two transcript lines of a submission, as the specification words
them: the user line for the input text and the assistant line for the reply
text, each with the colour of its role. -/
def submissionLines {c : Carriers} (tk : Toolkit c) (m : model c)
    (input reply : String) : List String :=
  [ tk.Render m.senderStyle "You: " ++ "What rhymes with the word '" ++ input ++ "'?",
    tk.Render m.responderStyle ("AI: " ++ reply) ]

/-- The lines the specification expects one event to add to the transcript of
model `m`: the pair of a submission when the event is the Enter key, the
input buffer is not empty and the endpoint answers with a reply; nothing
otherwise. -/
def linesOfEvent {c : Carriers} (tk : Toolkit c) (key : String) (m : model c)
    (ev : Event c) : List String :=
  match ev.1 with
  | .KeyMsg k =>
    if tk.keyString k = "enter" ∧ tk.Value m.textarea ≠ "" then
      match ev.2 { apiKey := key
                   params := { Messages := [UserMessage (msgContents (tk.Value m.textarea))]
                               Model := ChatModelGPT4o } } with
      | .ok chat =>
        match chat.Choices.head? with
        | some choice => submissionLines tk m (tk.Value m.textarea) choice.Message.Content
        | none => []
      | .error _ => []
    else []
  | _ => []

/-- The transcript the specification expects after a sequence of events: the
lines of each event in order, the model seen by an event being the one the
loop has reached. -/
def expectedTranscript {c : Carriers} (tk : Toolkit c) (key : String) :
    model c → List (Event c) → List String
  | _, [] => []
  | m, ev :: rest =>
    linesOfEvent tk key m ev ++
      match (Update tk key ev.2 m ev.1).result with
      | .ok (next, _) => expectedTranscript tk key next rest
      | .error _ => []

/-- An answer of the endpoint is usable when it is a response with at least
one choice. -/
def Answers (api : Api) : Prop :=
  ∀ req, ∃ choice rest, api req = .ok { Choices := choice :: rest }

/-! ## A reference toolkit

A small instance of `Toolkit` on which the program can be evaluated: a
textarea that appends printable keys up to its character limit, a viewport
that stores its content, and styles rendered without colour codes (as on a
terminal without colour support). -/

/-- Private state of the reference textarea. -/
structure PlainTextarea where
  value : String
  width : Int
  height : Int
  focus : Bool
deriving DecidableEq, Repr

/-- Private state of the reference viewport. -/
structure PlainViewport where
  content : String
  atBottom : Bool
deriving DecidableEq, Repr

/-- Carrier types of the reference toolkit: a key is its `String()` form and a
style is its optional foreground colour. -/
@[reducible] def plainCarriers : Carriers where
  Key := String
  Blink := Unit
  Other := Unit
  TextareaState := PlainTextarea
  ViewportState := PlainViewport
  Style := Option String
  WidgetCmd := Unit

/-- The reference toolkit. -/
def plainToolkit : Toolkit plainCarriers where
  keyString := fun k => k
  textareaNew :=
    { Placeholder := "", Prompt := "> ", CharLimit := 0, ShowLineNumbers := true
      FocusedStyleCursorLine := none, InsertNewlineEnabled := true
      state := { value := "", width := 40, height := 6, focus := false } }
  Focus := fun ta => { ta with state := { ta.state with focus := true } }
  SetWidth := fun ta w => { ta with state := { ta.state with width := w } }
  SetHeight := fun ta h => { ta with state := { ta.state with height := h } }
  Value := fun ta => ta.state.value
  Reset := fun ta => { ta with state := { ta.state with value := "" } }
  textareaUpdate := fun ta msg =>
    match msg with
    | .KeyMsg k =>
      if k.length = 1 ∧ ((ta.state.value.length : Int) < ta.CharLimit ∨ ta.CharLimit ≤ 0) then
        ({ ta with state := { ta.state with value := ta.state.value ++ k } }, .nil)
      else (ta, .nil)
    | _ => (ta, .nil)
  textareaView := fun ta => ta.Prompt ++ ta.state.value
  textareaBlink := .widget ()
  viewportNew := fun w h => { Width := w, Height := h, state := { content := "", atBottom := true } }
  SetContent := fun vp s => { vp with state := { vp.state with content := s } }
  GotoBottom := fun vp => { vp with state := { vp.state with atBottom := true } }
  viewportView := fun vp => vp.state.content
  NewStyle := none
  Foreground := fun _ colour => some colour
  Render := fun _ s => s

/-- An endpoint that answers every request with the single reply `reply`. -/
def replyWith (reply : String) : Api :=
  fun _ => .ok { Choices := [{ Message := { Content := reply } }] }

/-- An endpoint that fails every request with the error text `text`. -/
def failWith (text : String) : Api :=
  fun _ => .error { Error := text }

/-- A model of the reference toolkit whose input buffer holds `text` and whose
transcript is `lines`. -/
def plainModel (text : String) (lines : List String) : model plainCarriers :=
  let m := initialModel plainToolkit
  { m with
    textarea := { m.textarea with state := { m.textarea.state with value := text } }
    messages := lines }

/-- The request sent for the input text `input` with credential `key`. -/
def requestFor (key input : String) : Request :=
  { apiKey := key
    params := { Messages := [UserMessage (msgContents input)], Model := ChatModelGPT4o } }

/-- An input of exactly 280 characters, the limit set by `initialModel`. -/
def longInput : String := String.mk (List.replicate 280 'a')

/-- A session on the reference toolkit: the word `cat` is typed and submitted,
twice, and the endpoint answers `hat, bat, mat` each time. -/
def twiceCat : List (Event plainCarriers) :=
  ["c", "a", "t", "enter", "c", "a", "t", "enter"].map
    (fun k => (Msg.KeyMsg k, replyWith "hat, bat, mat"))

/-! ## One call of `Update` -/

theorem Update_enter_ok {c : Carriers} (tk : Toolkit c) (key : String) (api : Api)
    (m : model c) (k : c.Key) (choice : ChatCompletionChoice)
    (rest : List ChatCompletionChoice) (hk : tk.keyString k = "enter")
    (hs : tk.Value m.textarea ≠ "")
    (hapi : api (requestFor key (tk.Value m.textarea)) = .ok { Choices := choice :: rest }) :
    Update tk key api m (.KeyMsg k) =
      { result := .ok
          ({ m with
              messages := m.messages ++
                [tk.Render m.senderStyle "You: " ++ msgContents (tk.Value m.textarea)] ++
                [tk.Render m.responderStyle ("AI: " ++ choice.Message.Content)]
              viewport := tk.GotoBottom (tk.SetContent m.viewport
                (String.intercalate "\n" (m.messages ++
                  [tk.Render m.senderStyle "You: " ++ msgContents (tk.Value m.textarea)] ++
                  [tk.Render m.responderStyle ("AI: " ++ choice.Message.Content)])))
              textarea := tk.Reset m.textarea }, .nil)
        stdout := []
        requests := [requestFor key (tk.Value m.textarea)] } := by
  simp only [requestFor] at hapi
  simp [Update, hk, hs, hapi, requestFor]

theorem Update_enter_panic {c : Carriers} (tk : Toolkit c) (key : String) (api : Api)
    (m : model c) (k : c.Key) (hk : tk.keyString k = "enter")
    (hs : tk.Value m.textarea ≠ "")
    (hapi : api (requestFor key (tk.Value m.textarea)) = .ok { Choices := [] }) :
    Update tk key api m (.KeyMsg k) =
      { result := .error (.indexOutOfRange 0 0)
        stdout := []
        requests := [requestFor key (tk.Value m.textarea)] } := by
  simp only [requestFor] at hapi
  simp [Update, hk, hs, hapi, requestFor]

theorem Update_enter_error {c : Carriers} (tk : Toolkit c) (key : String) (api : Api)
    (m : model c) (k : c.Key) (err : GoError) (hk : tk.keyString k = "enter")
    (hs : tk.Value m.textarea ≠ "")
    (hapi : api (requestFor key (tk.Value m.textarea)) = .error err) :
    Update tk key api m (.KeyMsg k) =
      { result := .ok (m, .Quit)
        stdout := ["error encountered while making request to OpenAI API: " ++ err.Error]
        requests := [requestFor key (tk.Value m.textarea)] } := by
  simp only [requestFor] at hapi
  simp [Update, hk, hs, hapi, requestFor]

theorem Update_enter_empty {c : Carriers} (tk : Toolkit c) (key : String) (api : Api)
    (m : model c) (k : c.Key) (hk : tk.keyString k = "enter")
    (he : tk.Value m.textarea = "") :
    Update tk key api m (.KeyMsg k) = { result := .ok (m, .nil), stdout := [], requests := [] } := by
  simp [Update, hk, he]

theorem Update_enter_requests {c : Carriers} (tk : Toolkit c) (key : String) (api : Api)
    (m : model c) (k : c.Key) (hk : tk.keyString k = "enter")
    (hs : tk.Value m.textarea ≠ "") :
    (Update tk key api m (.KeyMsg k)).requests = [requestFor key (tk.Value m.textarea)] := by
  cases hapi : api (requestFor key (tk.Value m.textarea)) with
  | error e => rw [Update_enter_error tk key api m k e hk hs hapi]
  | ok chat =>
    obtain ⟨choices⟩ := chat
    cases choices with
    | nil => rw [Update_enter_panic tk key api m k hk hs hapi]
    | cons a l => rw [Update_enter_ok tk key api m k a l hk hs hapi]

theorem Update_quit {c : Carriers} (tk : Toolkit c) (key : String) (api : Api)
    (m : model c) (k : c.Key) (hk : tk.keyString k = "esc" ∨ tk.keyString k = "ctrl+c") :
    Update tk key api m (.KeyMsg k) =
      { result := .ok (m, .Quit), stdout := [tk.Value m.textarea ++ "\n"], requests := [] } := by
  simp [Update, hk]

theorem Update_other_key {c : Carriers} (tk : Toolkit c) (key : String) (api : Api)
    (m : model c) (k : c.Key) (hq : ¬ (tk.keyString k = "esc" ∨ tk.keyString k = "ctrl+c"))
    (he : tk.keyString k ≠ "enter") :
    Update tk key api m (.KeyMsg k) =
      { result := .ok ({ m with textarea := (tk.textareaUpdate m.textarea (.KeyMsg k)).1 },
          (tk.textareaUpdate m.textarea (.KeyMsg k)).2)
        stdout := []
        requests := [] } := by
  simp only [Update]
  rw [if_neg hq, if_neg he]

theorem Update_resize {c : Carriers} (tk : Toolkit c) (key : String) (api : Api)
    (m : model c) (w h : Int) :
    Update tk key api m (.WindowSizeMsg w h) =
      { result := .ok ({ m with
            viewport := { m.viewport with Width := w }
            textarea := tk.SetWidth m.textarea w }, .nil)
        stdout := []
        requests := [] } := rfl

/-! ## The contract of each event -/

/-- C1: handling the Enter key with a non-empty input buffer `s`, when the
request made is answered by a response whose first choice has the text `r`,
returns no command and a model whose transcript is the previous transcript
followed by exactly two lines, the user line `You: What rhymes with the word
's'?` (the sender style rendering `You: `) and the assistant line `AI: r`
(rendered in the responder style), and whose input buffer is empty.  It holds
for every non-empty `s`, hence for those within the 280-character cap; the
one fact used about the textarea widget is that `Reset` empties its value. -/
theorem enter_appends_user_and_assistant_line {c : Carriers} (tk : Toolkit c)
    (key : String) (api : Api) (m : model c) (k : c.Key) (r : String)
    (rest : List ChatCompletionChoice)
    (hreset : ∀ ta, tk.Value (tk.Reset ta) = "")
    (hk : tk.keyString k = "enter")
    (hs : tk.Value m.textarea ≠ "")
    (hapi : ∀ req ∈ (Update tk key api m (.KeyMsg k)).requests,
      api req = .ok { Choices := { Message := { Content := r } } :: rest }) :
    ∃ next, (Update tk key api m (.KeyMsg k)).result = .ok (next, .nil) ∧
      next.messages = m.messages ++
        [ tk.Render m.senderStyle "You: " ++ "What rhymes with the word '" ++
            tk.Value m.textarea ++ "'?",
          tk.Render m.responderStyle ("AI: " ++ r) ] ∧
      tk.Value next.textarea = "" := by
  have hreq := Update_enter_requests tk key api m k hk hs
  have hok := hapi _ (by rw [hreq]; exact List.mem_singleton.mpr rfl)
  rw [Update_enter_ok tk key api m k _ rest hk hs hok]
  refine ⟨_, rfl, ?_, hreset _⟩
  simp [msgContents, String.append_assoc]

/-- The scenario of C1: input `cat`, reply `hat, bat, mat`, empty transcript. -/
theorem enter_appends_user_and_assistant_line_witness :
    plainToolkit.Value (plainModel "cat" []).textarea ≠ "" ∧
    ∃ next, (Update plainToolkit "sk" (replyWith "hat, bat, mat") (plainModel "cat" [])
        (.KeyMsg "enter")).result = .ok (next, .nil) ∧
      next.messages = [] ++
        [ "You: " ++ "What rhymes with the word '" ++ "cat" ++ "'?",
          "AI: " ++ "hat, bat, mat" ] ∧
      plainToolkit.Value next.textarea = "" :=
  ⟨by decide,
   enter_appends_user_and_assistant_line plainToolkit "sk" (replyWith "hat, bat, mat")
    (plainModel "cat" []) "enter" "hat, bat, mat" [] (fun _ => rfl) rfl (by decide)
    (fun _ _ => rfl)⟩

/-- C2: handling the Enter key while the input buffer is empty sends no
completion request, writes nothing, returns no command and returns the model
unchanged, so the transcript (in particular an empty one) and the input
buffer are what they were. -/
theorem enter_on_empty_buffer_is_noop {c : Carriers} (tk : Toolkit c) (key : String)
    (api : Api) (m : model c) (k : c.Key)
    (hk : tk.keyString k = "enter") (he : tk.Value m.textarea = "") :
    Update tk key api m (.KeyMsg k) = { result := .ok (m, .nil), stdout := [], requests := [] } ∧
    (∀ next cmd, (Update tk key api m (.KeyMsg k)).result = .ok (next, cmd) →
      next.messages = m.messages ∧ next.messages.length = m.messages.length ∧
      tk.Value next.textarea = tk.Value m.textarea) := by
  rw [Update_enter_empty tk key api m k hk he]
  refine ⟨rfl, ?_⟩
  intro next cmd h
  injection h with h
  injection h with h1 h2
  subst h1
  exact ⟨rfl, rfl, rfl⟩

/-- The scenario of C2: empty input and empty transcript. -/
theorem enter_on_empty_buffer_is_noop_witness :
    plainToolkit.Value (plainModel "" []).textarea = "" ∧
    (Update plainToolkit "sk" (replyWith "hat") (plainModel "" []) (.KeyMsg "enter")).requests = [] ∧
    (Update plainToolkit "sk" (replyWith "hat") (plainModel "" []) (.KeyMsg "enter")).result =
      .ok (plainModel "" [], .nil) :=
  ⟨rfl,
   congrArg Step.requests (enter_on_empty_buffer_is_noop plainToolkit "sk" (replyWith "hat")
     (plainModel "" []) "enter" rfl rfl).1,
   congrArg Step.result (enter_on_empty_buffer_is_noop plainToolkit "sk" (replyWith "hat")
     (plainModel "" []) "enter" rfl rfl).1⟩

/-- C3: handling the Enter key with a non-empty input buffer, when the
completion request fails with an error, returns the quit command and the
model it received: the transcript is the one before the event, with neither
a user line nor an assistant line added.  The error is reported on standard
output. -/
theorem enter_failure_quits_without_lines {c : Carriers} (tk : Toolkit c) (key : String)
    (api : Api) (m : model c) (k : c.Key) (err : GoError)
    (hk : tk.keyString k = "enter")
    (hs : tk.Value m.textarea ≠ "")
    (hfail : ∀ req ∈ (Update tk key api m (.KeyMsg k)).requests, api req = .error err) :
    (Update tk key api m (.KeyMsg k)).result = .ok (m, .Quit) ∧
    (Update tk key api m (.KeyMsg k)).stdout =
      ["error encountered while making request to OpenAI API: " ++ err.Error] ∧
    (∀ next cmd, (Update tk key api m (.KeyMsg k)).result = .ok (next, cmd) →
      cmd = .Quit ∧ next.messages = m.messages) := by
  have hreq := Update_enter_requests tk key api m k hk hs
  have herr := hfail _ (by rw [hreq]; exact List.mem_singleton.mpr rfl)
  rw [Update_enter_error tk key api m k err hk hs herr]
  refine ⟨rfl, rfl, ?_⟩
  intro next cmd h
  injection h with h
  injection h with h1 h2
  subst h1 h2
  exact ⟨rfl, rfl⟩

/-- A failed request after one earlier exchange: the two earlier lines stay. -/
theorem enter_failure_quits_without_lines_witness :
    plainToolkit.Value (plainModel "dog" ["You: a", "AI: b"]).textarea ≠ "" ∧
    (Update plainToolkit "sk" (failWith "401 Unauthorized") (plainModel "dog" ["You: a", "AI: b"])
      (.KeyMsg "enter")).result = .ok (plainModel "dog" ["You: a", "AI: b"], .Quit) :=
  ⟨by decide,
   (enter_failure_quits_without_lines plainToolkit "sk" (failWith "401 Unauthorized")
     (plainModel "dog" ["You: a", "AI: b"]) "enter" { Error := "401 Unauthorized" } rfl
     (by decide) (fun _ _ => rfl)).1⟩

/-- C5: a window-resize event of width `w` assigns `w` to the viewport width
and calls the textarea's `SetWidth` with `w`, returns no command, writes
nothing and sends no request; the transcript, both styles, the error field
and the rest of the viewport are untouched, and the input-buffer text is the
same (the fact used about the widget: `SetWidth` keeps its value). -/
theorem resize_sets_both_widths_only {c : Carriers} (tk : Toolkit c) (key : String)
    (api : Api) (m : model c) (w h : Int)
    (hwidth : ∀ ta x, tk.Value (tk.SetWidth ta x) = tk.Value ta) :
    ∃ next, Update tk key api m (.WindowSizeMsg w h) =
        { result := .ok (next, .nil), stdout := [], requests := [] } ∧
      next.viewport.Width = w ∧
      next.textarea = tk.SetWidth m.textarea w ∧
      next.messages = m.messages ∧
      tk.Value next.textarea = tk.Value m.textarea ∧
      next.viewport.Height = m.viewport.Height ∧
      next.viewport.state = m.viewport.state ∧
      next.senderStyle = m.senderStyle ∧
      next.responderStyle = m.responderStyle ∧
      next.err = m.err := by
  rw [Update_resize]
  exact ⟨_, rfl, rfl, rfl, rfl, hwidth _ _, rfl, rfl, rfl, rfl, rfl⟩

/-- A resize to 80 columns with one exchange on screen and `ca` typed. -/
theorem resize_sets_both_widths_only_witness :
    (∀ ta x, plainToolkit.Value (plainToolkit.SetWidth ta x) = plainToolkit.Value ta) ∧
    ∃ next, Update plainToolkit "sk" (replyWith "hat") (plainModel "ca" ["You: a", "AI: b"])
          (.WindowSizeMsg 80 24) =
        { result := .ok (next, .nil), stdout := [], requests := [] } ∧
      next.viewport.Width = 80 ∧
      next.textarea = plainToolkit.SetWidth (plainModel "ca" ["You: a", "AI: b"]).textarea 80 ∧
      next.messages = (plainModel "ca" ["You: a", "AI: b"]).messages ∧
      plainToolkit.Value next.textarea =
        plainToolkit.Value (plainModel "ca" ["You: a", "AI: b"]).textarea ∧
      next.viewport.Height = (plainModel "ca" ["You: a", "AI: b"]).viewport.Height ∧
      next.viewport.state = (plainModel "ca" ["You: a", "AI: b"]).viewport.state ∧
      next.senderStyle = (plainModel "ca" ["You: a", "AI: b"]).senderStyle ∧
      next.responderStyle = (plainModel "ca" ["You: a", "AI: b"]).responderStyle ∧
      next.err = (plainModel "ca" ["You: a", "AI: b"]).err :=
  ⟨fun _ _ => rfl,
   resize_sets_both_widths_only plainToolkit "sk" (replyWith "hat")
     (plainModel "ca" ["You: a", "AI: b"]) 80 24 (fun _ _ => rfl)⟩

/-- C6: handling a quit key (`esc` or `ctrl+c`) writes the input-buffer text
followed by a newline to standard output and returns the quit command with
the model it received (transcript and input buffer unchanged); no completion
request is sent. -/
theorem quit_key_prints_buffer {c : Carriers} (tk : Toolkit c) (key : String)
    (api : Api) (m : model c) (k : c.Key)
    (hk : tk.keyString k = "esc" ∨ tk.keyString k = "ctrl+c") :
    Update tk key api m (.KeyMsg k) =
      { result := .ok (m, .Quit), stdout := [tk.Value m.textarea ++ "\n"], requests := [] } :=
  Update_quit tk key api m k hk

/-- The scenario of C6: the buffer holds `hello` when `esc` is pressed. -/
theorem quit_key_prints_buffer_witness :
    (Update plainToolkit "sk" (replyWith "hat") (plainModel "hello" []) (.KeyMsg "esc")).stdout =
      ["hello" ++ "\n"] ∧
    (Update plainToolkit "sk" (replyWith "hat") (plainModel "hello" []) (.KeyMsg "ctrl+c")) =
      { result := .ok (plainModel "hello" [], .Quit), stdout := ["hello" ++ "\n"], requests := [] } :=
  ⟨congrArg Step.stdout (quit_key_prints_buffer plainToolkit "sk" (replyWith "hat")
     (plainModel "hello" []) "esc" (Or.inl rfl)),
   quit_key_prints_buffer plainToolkit "sk" (replyWith "hat")
     (plainModel "hello" []) "ctrl+c" (Or.inr rfl)⟩

/-- C7: the completion request built while handling Enter depends on the
input-buffer text and the credential only.  Two models with the same
non-empty buffer text, whatever their transcripts and other fields (and
whatever the endpoint answers), send the same single request: the fixed
model identifier and exactly one message, of role `user`, whose text is
`What rhymes with the word '<input>'?`; no transcript line is part of it. -/
theorem request_is_stateless {c : Carriers} (tk : Toolkit c) (key : String)
    (api₁ api₂ : Api) (m₁ m₂ : model c) (k₁ k₂ : c.Key)
    (hk₁ : tk.keyString k₁ = "enter") (hk₂ : tk.keyString k₂ = "enter")
    (hs : tk.Value m₁.textarea ≠ "")
    (hsame : tk.Value m₂.textarea = tk.Value m₁.textarea) :
    (Update tk key api₁ m₁ (.KeyMsg k₁)).requests =
      (Update tk key api₂ m₂ (.KeyMsg k₂)).requests ∧
    (Update tk key api₁ m₁ (.KeyMsg k₁)).requests =
      [ { apiKey := key
          params :=
            { Messages :=
                [ { Role := "user"
                    Content := "What rhymes with the word '" ++ tk.Value m₁.textarea ++ "'?" } ]
              Model := ChatModelGPT4o } } ] := by
  have hs₂ : tk.Value m₂.textarea ≠ "" := by rw [hsame]; exact hs
  rw [Update_enter_requests tk key api₁ m₁ k₁ hk₁ hs,
    Update_enter_requests tk key api₂ m₂ k₂ hk₂ hs₂, hsame]
  exact ⟨rfl, rfl⟩

/-- The same word submitted on an empty transcript and after an earlier
exchange, against endpoints that answer differently. -/
theorem request_is_stateless_witness :
    plainToolkit.Value (plainModel "cat" []).textarea ≠ "" ∧
    (Update plainToolkit "sk" (replyWith "hat") (plainModel "cat" []) (.KeyMsg "enter")).requests =
      (Update plainToolkit "sk" (failWith "503")
        (plainModel "cat" ["You: What rhymes with the word 'dog'?", "AI: fog"])
        (.KeyMsg "enter")).requests ∧
    (Update plainToolkit "sk" (replyWith "hat") (plainModel "cat" []) (.KeyMsg "enter")).requests =
      [ { apiKey := "sk"
          params :=
            { Messages := [ { Role := "user", Content := "What rhymes with the word '" ++ "cat" ++ "'?" } ]
              Model := ChatModelGPT4o } } ] :=
  ⟨by decide,
   request_is_stateless plainToolkit "sk" (replyWith "hat") (failWith "503")
     (plainModel "cat" []) (plainModel "cat" ["You: What rhymes with the word 'dog'?", "AI: fog"])
     "enter" "enter" rfl rfl (by decide) rfl⟩

/-- C10: when the completion request returns a response without error, the
Enter handler indexes the first choice with no length check.  If the response
has at least one choice the handler returns normally and the assistant line
is `AI: ` followed by the text of the first choice, whatever the further
choices are; if the choice list is empty the same code path panics with an
index out of range, nothing in the handler preventing it. -/
theorem first_choice_is_read_unguarded {c : Carriers} (tk : Toolkit c) (key : String)
    (api : Api) (m : model c) (k : c.Key) (chat : ChatCompletion)
    (hk : tk.keyString k = "enter")
    (hs : tk.Value m.textarea ≠ "")
    (hapi : ∀ req ∈ (Update tk key api m (.KeyMsg k)).requests, api req = .ok chat) :
    (∀ choice rest, chat.Choices = choice :: rest →
      ∃ next, (Update tk key api m (.KeyMsg k)).result = .ok (next, .nil) ∧
        next.messages = m.messages ++
          [ tk.Render m.senderStyle "You: " ++ msgContents (tk.Value m.textarea),
            tk.Render m.responderStyle ("AI: " ++ choice.Message.Content) ]) ∧
    (chat.Choices = [] →
      (Update tk key api m (.KeyMsg k)).result = .error (.indexOutOfRange 0 0)) := by
  have hreq := Update_enter_requests tk key api m k hk hs
  have hok := hapi _ (by rw [hreq]; exact List.mem_singleton.mpr rfl)
  obtain ⟨choices⟩ := chat
  constructor
  · intro choice rest hc
    simp only at hc
    subst hc
    rw [Update_enter_ok tk key api m k choice rest hk hs hok]
    exact ⟨_, rfl, by simp⟩
  · intro hc
    simp only at hc
    subst hc
    rw [Update_enter_panic tk key api m k hk hs hok]

/-- A response with two choices (the second is dropped) and a response with
none (the handler panics). -/
theorem first_choice_is_read_unguarded_witness :
    (∃ next,
      (Update plainToolkit "sk"
        (fun _ => .ok { Choices := [{ Message := { Content := "hat" } },
                                    { Message := { Content := "bat" } }] })
        (plainModel "cat" []) (.KeyMsg "enter")).result = .ok (next, .nil) ∧
      next.messages = [] ++ ["You: " ++ msgContents "cat", "AI: " ++ "hat"]) ∧
    (Update plainToolkit "sk" (fun _ => .ok { Choices := [] })
      (plainModel "cat" []) (.KeyMsg "enter")).result = .error (.indexOutOfRange 0 0) :=
  ⟨(first_choice_is_read_unguarded plainToolkit "sk"
      (fun _ => .ok { Choices := [{ Message := { Content := "hat" } },
                                  { Message := { Content := "bat" } }] })
      (plainModel "cat" []) "enter" _ rfl (by decide) (fun _ _ => rfl)).1 _ _ rfl,
   (first_choice_is_read_unguarded plainToolkit "sk" (fun _ => .ok { Choices := [] })
      (plainModel "cat" []) "enter" _ rfl (by decide) (fun _ _ => rfl)).2 rfl⟩

/-! ## The prompt length -/

theorem msgContents_length (input : String) :
    (msgContents input).length = input.length + 29 := by
  have h1 : ("What rhymes with the word '" : String).length = 27 := by decide
  have h2 : ("'?" : String).length = 2 := by decide
  simp only [msgContents, String.length_append, h1, h2]
  omega

theorem longInput_length : longInput.length = 280 := by
  show (List.replicate 280 'a').length = 280
  exact List.length_replicate 280 'a'

theorem longInput_ne_empty : longInput ≠ "" := by
  intro h
  have h2 := congrArg String.length h
  rw [longInput_length] at h2
  exact absurd h2 (by decide)

/-- C9 as stated fails: with an input buffer of exactly 280 characters (not
empty, within the limit) the one message of the request sent on Enter has a
text of 309 characters, more than 280. -/
theorem prompt_of_full_buffer_is_309_chars :
    plainToolkit.Value (plainModel longInput []).textarea ≠ "" ∧
    (plainToolkit.Value (plainModel longInput []).textarea).length ≤ 280 ∧
    (Update plainToolkit "sk" (replyWith "x") (plainModel longInput [])
      (.KeyMsg "enter")).requests.map
        (fun req => req.params.Messages.map (fun p => p.Content.length)) = [[309]] := by
  have hv : plainToolkit.Value (plainModel longInput []).textarea = longInput := rfl
  refine ⟨by rw [hv]; exact longInput_ne_empty, by rw [hv, longInput_length], ?_⟩
  rw [Update_enter_requests plainToolkit "sk" (replyWith "x") (plainModel longInput []) "enter"
    rfl (by rw [hv]; exact longInput_ne_empty), hv]
  simp [requestFor, UserMessage, msgContents_length, longInput_length]

/-- C9, amended: for every Enter event handled with a non-empty input buffer
of at most 280 characters, exactly one request is sent, its one message is
the prompt, and the prompt is the input wrapped in the template, `What rhymes
with the word '<input>'?`; it is therefore non-empty and 29 characters longer
than the input (the fixed words of the template), hence at most 309
characters long. -/
theorem prompt_is_input_plus_template {c : Carriers} (tk : Toolkit c) (key : String)
    (api : Api) (m : model c) (k : c.Key)
    (hk : tk.keyString k = "enter")
    (hs : tk.Value m.textarea ≠ "")
    (hcap : (tk.Value m.textarea).length ≤ 280) :
    ∃ prompt,
      (Update tk key api m (.KeyMsg k)).requests =
        [ { apiKey := key
            params := { Messages := [UserMessage prompt], Model := ChatModelGPT4o } } ] ∧
      prompt = "What rhymes with the word '" ++ tk.Value m.textarea ++ "'?" ∧
      prompt ≠ "" ∧
      prompt.length = (tk.Value m.textarea).length + 29 ∧
      prompt.length ≤ 309 := by
  refine ⟨msgContents (tk.Value m.textarea), Update_enter_requests tk key api m k hk hs, ?_, ?_,
    msgContents_length _, ?_⟩
  · simp only [msgContents]
  · intro h
    have h2 := congrArg String.length h
    rw [msgContents_length] at h2
    simp at h2
  · rw [msgContents_length]
    omega

/-- The bound of 309 is reached by an input of 280 characters. -/
theorem prompt_is_input_plus_template_witness :
    plainToolkit.Value (plainModel longInput []).textarea ≠ "" ∧
    (plainToolkit.Value (plainModel longInput []).textarea).length ≤ 280 ∧
    ∃ prompt,
      (Update plainToolkit "sk" (replyWith "x") (plainModel longInput [])
          (.KeyMsg "enter")).requests =
        [ { apiKey := "sk"
            params := { Messages := [UserMessage prompt], Model := ChatModelGPT4o } } ] ∧
      prompt = "What rhymes with the word '" ++
        plainToolkit.Value (plainModel longInput []).textarea ++ "'?" ∧
      prompt ≠ "" ∧
      prompt.length = (plainToolkit.Value (plainModel longInput []).textarea).length + 29 ∧
      prompt.length ≤ 309 :=
  ⟨longInput_ne_empty, le_of_eq longInput_length,
   prompt_is_input_plus_template plainToolkit "sk" (replyWith "x") (plainModel longInput [])
     "enter" rfl longInput_ne_empty (le_of_eq longInput_length)⟩

/-! ## The process -/

theorem main_missing_credential {c : Carriers} (tk : Toolkit c) (Getenv : String → String)
    (Run : model c → Option GoError) (h : Getenv "OPENAI_API_KEY" = "") :
    main tk Getenv Run =
      { exitCode := 1
        stdout := ["API key must be set via the 'OPENAI_API_KEY' environment variable\n\r"]
        stderr := []
        started := false } := by
  simp [main, h]

theorem main_clean_exit {c : Carriers} (tk : Toolkit c) (Getenv : String → String)
    (Run : model c → Option GoError) (h : Getenv "OPENAI_API_KEY" ≠ "")
    (hrun : Run (initialModel tk) = none) :
    main tk Getenv Run = { exitCode := 0, stdout := [], stderr := [], started := true } := by
  simp [main, h, hrun]

theorem main_loop_error {c : Carriers} (tk : Toolkit c) (Getenv : String → String)
    (Run : model c → Option GoError) (err : GoError) (h : Getenv "OPENAI_API_KEY" ≠ "")
    (hrun : Run (initialModel tk) = some err) :
    main tk Getenv Run =
      { exitCode := 0, stdout := [], stderr := ["Oof: " ++ err.Error ++ "\n"], started := true } := by
  simp [main, h, hrun]

/-- C8: with the credential set and an event loop that returns an error,
`main` prints the error to standard error and then returns, so the process
ends with exit code 0, not with a non-zero code; with the credential missing
the exit code is 1. -/
theorem main_exits_zero_after_loop_error :
    main plainToolkit (fun _ => "sk-test") (fun _ => some { Error := "could not open a new TTY" }) =
      { exitCode := 0
        stdout := []
        stderr := ["Oof: could not open a new TTY\n"]
        started := true } ∧
    (main plainToolkit (fun _ => "") (fun _ => none)).exitCode = 1 := by
  constructor
  · rw [main_loop_error plainToolkit _ _ { Error := "could not open a new TTY" } (by decide) rfl]
    decide
  · rw [main_missing_credential plainToolkit _ _ rfl]

/-! ## Sessions: the transcript is an append-only log -/

theorem Answers_replyWith (reply : String) : Answers (replyWith reply) :=
  fun _ => ⟨_, _, rfl⟩

/-- One step of the loop, when the endpoint answers: `Update` returns, and the
transcript of the model it returns is the old transcript followed by the
lines of the event. -/
theorem Update_messages {c : Carriers} (tk : Toolkit c) (key : String) (m : model c)
    (ev : Event c) (hans : Answers ev.2) :
    ∃ next cmd, (Update tk key ev.2 m ev.1).result = .ok (next, cmd) ∧
      next.messages = m.messages ++ linesOfEvent tk key m ev := by
  obtain ⟨msg, api⟩ := ev
  cases msg with
  | WindowSizeMsg w h =>
    exact ⟨_, _, congrArg Step.result (Update_resize tk key api m w h), by simp [linesOfEvent]⟩
  | KeyMsg k =>
    by_cases hq : tk.keyString k = "esc" ∨ tk.keyString k = "ctrl+c"
    · have hne : tk.keyString k ≠ "enter" := by
        rcases hq with h | h <;> rw [h] <;> decide
      exact ⟨_, _, congrArg Step.result (Update_quit tk key api m k hq),
        by simp [linesOfEvent, hne]⟩
    · by_cases he : tk.keyString k = "enter"
      · by_cases hv : tk.Value m.textarea = ""
        · exact ⟨_, _, congrArg Step.result (Update_enter_empty tk key api m k he hv),
            by simp [linesOfEvent, hv]⟩
        · obtain ⟨choice, rest, hok⟩ := hans (requestFor key (tk.Value m.textarea))
          refine ⟨_, _, congrArg Step.result (Update_enter_ok tk key api m k choice rest he hv hok),
            ?_⟩
          simp only [requestFor] at hok
          simp only [linesOfEvent, he, hv, ne_eq, not_false_eq_true, and_self, if_true, hok,
            List.head?_cons, submissionLines]
          simp [msgContents, String.append_assoc]
      · exact ⟨_, _, congrArg Step.result (Update_other_key tk key api m k hq he),
          by simp [linesOfEvent, he]⟩
  | BlinkMsg b =>
    exact ⟨_, _, rfl, by simp [linesOfEvent]⟩
  | other o =>
    exact ⟨_, _, rfl, by simp [linesOfEvent]⟩

theorem run_messages {c : Carriers} (tk : Toolkit c) (key : String) :
    ∀ (events : List (Event c)) (m : model c), (∀ ev ∈ events, Answers ev.2) →
      ∃ final, run tk key m events = .ok final ∧
        final.messages = m.messages ++ expectedTranscript tk key m events
  | [], m, _ => ⟨m, rfl, by simp [expectedTranscript]⟩
  | ev :: rest, m, hans => by
    obtain ⟨next, cmd, hstep, hmsgs⟩ :=
      Update_messages tk key m ev (hans ev (List.mem_cons_self _ _))
    obtain ⟨final, hrun, hfinal⟩ :=
      run_messages tk key rest next (fun e he => hans e (List.mem_cons_of_mem _ he))
    refine ⟨final, ?_, ?_⟩
    · simp only [run, hstep]
      exact hrun
    · simp only [expectedTranscript, hstep]
      rw [hfinal, hmsgs, List.append_assoc]

theorem expectedTranscript_of_take {c : Carriers} (tk : Toolkit c) (key : String) :
    ∀ (events : List (Event c)) (m : model c) (n : Nat),
      expectedTranscript tk key m (events.take n) <+: expectedTranscript tk key m events
  | [], _, n => by simp [expectedTranscript]
  | ev :: rest, m, 0 => by simp [expectedTranscript]
  | ev :: rest, m, n + 1 => by
    simp only [List.take_succ_cons, expectedTranscript]
    cases hres : (Update tk key ev.2 m ev.1).result with
    | error p => exact List.prefix_refl _
    | ok pair =>
      obtain ⟨next, cmd⟩ := pair
      exact (List.prefix_append_right_inj _).mpr (expectedTranscript_of_take tk key rest next n)

/-- C4: for every finite sequence of events handled from `initialModel`, every
completion request being answered with a reply, the loop reaches a final
model whose transcript is exactly the concatenation, in the order of the
events, of the user line and assistant line of each Enter event handled with
a non-empty input buffer.  After any number `n` of these events the
transcript is the same concatenation over the first `n` events and is an
initial segment of the final transcript: lines are only ever added at the
end, so none is reordered, removed, changed or merged, and the length never
decreases. -/
theorem transcript_is_submission_log {c : Carriers} (tk : Toolkit c) (key : String)
    (events : List (Event c)) (hans : ∀ ev ∈ events, Answers ev.2) :
    ∃ final, run tk key (initialModel tk) events = .ok final ∧
      final.messages = expectedTranscript tk key (initialModel tk) events ∧
      ∀ n, ∃ mid, run tk key (initialModel tk) (events.take n) = .ok mid ∧
        mid.messages = expectedTranscript tk key (initialModel tk) (events.take n) ∧
        mid.messages <+: final.messages ∧
        mid.messages.length ≤ final.messages.length := by
  obtain ⟨final, hrun, hfinal⟩ := run_messages tk key events (initialModel tk) hans
  have hinit : (initialModel tk).messages = [] := rfl
  rw [hinit, List.nil_append] at hfinal
  refine ⟨final, hrun, hfinal, ?_⟩
  intro n
  obtain ⟨mid, hmrun, hmid⟩ := run_messages tk key (events.take n) (initialModel tk)
    (fun e he => hans e (List.mem_of_mem_take he))
  rw [hinit, List.nil_append] at hmid
  have hpre : mid.messages <+: final.messages := by
    rw [hmid, hfinal]
    exact expectedTranscript_of_take tk key events (initialModel tk) n
  exact ⟨mid, hmrun, hmid, hpre, hpre.length_le⟩

/-- The word `cat` submitted twice gives four lines, the pair of the first
submission before the pair of the second. -/
theorem transcript_is_submission_log_witness :
    (∀ ev ∈ twiceCat, Answers ev.2) ∧
    expectedTranscript plainToolkit "sk" (initialModel plainToolkit) twiceCat =
      [ "You: What rhymes with the word 'cat'?", "AI: hat, bat, mat",
        "You: What rhymes with the word 'cat'?", "AI: hat, bat, mat" ] ∧
    ∃ final, run plainToolkit "sk" (initialModel plainToolkit) twiceCat = .ok final ∧
      final.messages = expectedTranscript plainToolkit "sk" (initialModel plainToolkit) twiceCat ∧
      ∀ n, ∃ mid, run plainToolkit "sk" (initialModel plainToolkit) (twiceCat.take n) = .ok mid ∧
        mid.messages =
          expectedTranscript plainToolkit "sk" (initialModel plainToolkit) (twiceCat.take n) ∧
        mid.messages <+: final.messages ∧
        mid.messages.length ≤ final.messages.length := by
  have hans : ∀ ev ∈ twiceCat, Answers ev.2 := by
    intro ev hev
    obtain ⟨k, _, rfl⟩ := List.mem_map.mp hev
    exact Answers_replyWith _
  exact ⟨hans, by decide, transcript_is_submission_log plainToolkit "sk" twiceCat hans⟩

end Rhymes
